import Mathlib

/-!
Verification of the `anth` CLI (src/anth/src/main.rs) against its
natural-language specification.

The shallow embedding below translates the Rust source:
* `Message`, `AnthropicRequest`, `AnthropicResponse`, `Content` mirror the
  serde structs.
* File and process effects (the transcript file, environment variables, the
  config file, git subprocesses, the HTTP exchange) are made explicit
  parameters: a `FileState` for the chat-history file, an `Option String`
  for the environment variable, a `ConfigState` for the config file,
  `CmdResult`s for the two git invocations, and an oracle function for the
  HTTP round trip.
* serde_json serialization is modelled at the JSON-value level: a `Json`
  inductive stands for the parsed document; `FileState.corrupt` stands for
  file text that fails JSON parsing altogether.
-/

/-- JSON values, the shape serde_json works with. -/
inductive Json where
  | null
  | bool (b : Bool)
  | num (n : Int)
  | str (s : String)
  | arr (xs : List Json)
  | obj (fields : List (String × Json))

/-- Rust `str::trim`: remove leading and trailing whitespace. Modelled
over the character list so it is kernel-executable; `Char.isWhitespace`
stands for Rust's whitespace predicate (they agree on ASCII input). -/
def rustTrim (s : String) : String :=
  ⟨((s.data.dropWhile Char.isWhitespace).reverse.dropWhile Char.isWhitespace).reverse⟩

/-- Mirrors `struct Message { role: String, content: String }`. -/
structure Message where
  role : String
  content : String
deriving DecidableEq

/-- serde field access for a derived struct: a known field must occur
exactly once in the object (absence and duplication are both errors);
unknown fields are ignored. -/
def getField (fields : List (String × Json)) (key : String) : Option Json :=
  match fields.filter (fun kv => kv.1 == key) with
  | [kv] => some kv.2
  | _ => none

/-- Serialization of one `Message` (derived `Serialize`, declaration
field order). -/
def encodeMessage (m : Message) : Json :=
  Json.obj [("role", Json.str m.role), ("content", Json.str m.content)]

/-- Serialization of a transcript (`Vec<Message>`). -/
def encodeTranscript (ms : List Message) : Json :=
  Json.arr (ms.map encodeMessage)

/-- Deserialization of one `Message` (derived `Deserialize`): both string
fields must be present with string values. -/
def decodeMessage : Json → Option Message
  | Json.obj fields =>
    match getField fields "role", getField fields "content" with
    | some (Json.str role), some (Json.str content) => some ⟨role, content⟩
    | _, _ => none
  | _ => none

/-- Element-by-element decode of a JSON array into messages; the first
failing element aborts, as serde does for `Vec<Message>`. -/
def decodeList : List Json → Option (List Message)
  | [] => some []
  | j :: rest =>
    match decodeMessage j with
    | none => none
    | some m =>
      match decodeList rest with
      | none => none
      | some ms => some (m :: ms)

/-- Deserialization of a transcript: the document must be a JSON array. -/
def decodeTranscript : Json → Option (List Message)
  | Json.arr xs => decodeList xs
  | _ => none

/-- State of the chat-history backing file. `missing` = no file;
`unreadable` = path resolution or read failure; `corrupt` = text that is
not valid JSON; `content j` = file holds the JSON document `j`. -/
inductive FileState where
  | missing
  | unreadable
  | corrupt
  | content (j : Json)

/-- Mirrors `load_chat_history`: any path error or read failure yields
`Vec::new()`; parse failure hits `unwrap_or_default()`. -/
def load_chat_history : FileState → List Message
  | FileState.missing => []
  | FileState.unreadable => []
  | FileState.corrupt => []
  | FileState.content j => (decodeTranscript j).getD []

/-- Mirrors `save_chat_history`: serialize the full transcript and
overwrite the backing file. `writeOk` models whether path resolution and
`fs::write` succeed this call; on failure the error propagates to the
caller and the file is unchanged. -/
def save_chat_history (writeOk : Bool) (ms : List Message) :
    Except String FileState :=
  if writeOk then Except.ok (FileState.content (encodeTranscript ms))
  else Except.error "io error"

/-- State of the config file consulted by `AnthropicClient::new` when the
environment variable is absent. `pathError` = `get_config_path` failed;
`parsed entries` = the file exists, reads, and parses as a JSON object of
strings (serde_json into `HashMap<String, String>`, last duplicate wins). -/
inductive ConfigState where
  | pathError
  | absent
  | readError
  | parseError
  | parsed (entries : List (String × String))

/-- Lookup mirroring `HashMap::get("api_key").cloned()` with serde_json
last-wins insertion for duplicate keys. -/
def configGet (entries : List (String × String)) (key : String) : Option String :=
  ((entries.filter (fun kv => kv.1 == key)).getLast?).map (fun kv => kv.2)

/-- The config-file arm of credential resolution: every failure inside the
closure is swallowed by the outer `unwrap_or_else(|_| String::new())`. -/
def configApiKey : ConfigState → String
  | ConfigState.pathError => ""
  | ConfigState.absent => ""
  | ConfigState.readError => ""
  | ConfigState.parseError => ""
  | ConfigState.parsed entries => (configGet entries "api_key").getD ""

/-- Credential resolution chain
`env::var("ANTHROPIC_API_KEY").or_else(config closure).unwrap_or_else`:
the environment value (even an empty one) wins when the variable is
present; otherwise the config file is consulted best-effort. -/
def resolve_api_key (envVar : Option String) (cfg : ConfigState) : String :=
  match envVar with
  | some v => v
  | none => configApiKey cfg

/-- The error message of `AnthropicClient::new` when the key is empty
(the `CredentialMissing` failure of the spec). -/
def credentialMissingMsg : String :=
  "ANTHROPIC_API_KEY not found. Please set it as an environment variable or in the config file."

/-- Mirrors `AnthropicClient::new`: resolve the key, fail if it is empty,
otherwise hold it. The client is represented by its api key. -/
def AnthropicClient.new (envVar : Option String) (cfg : ConfigState) :
    Except String String :=
  let api_key := resolve_api_key envVar cfg
  if api_key = "" then Except.error credentialMissingMsg
  else Except.ok api_key

/-- Mirrors `struct Content { text: String }`. -/
structure Content where
  text : String
deriving DecidableEq

/-- Mirrors `struct AnthropicResponse { content: Vec<Content> }`. -/
structure AnthropicResponse where
  content : List Content
deriving DecidableEq

/-- Decode one content block: field `text` must be a string. -/
def decodeContent : Json → Option Content
  | Json.obj fields =>
    match getField fields "text" with
    | some (Json.str s) => some ⟨s⟩
    | _ => none
  | _ => none

/-- Decode a JSON array of content blocks, first failure aborting. -/
def decodeContentList : List Json → Option (List Content)
  | [] => some []
  | j :: rest =>
    match decodeContent j with
    | none => none
    | some c =>
      match decodeContentList rest with
      | none => none
      | some cs => some (c :: cs)

/-- Decode an `AnthropicResponse`: object with a `content` array. -/
def decodeResponse : Json → Option AnthropicResponse
  | Json.obj fields =>
    match getField fields "content" with
    | some (Json.arr xs) =>
      match decodeContentList xs with
      | some cs => some ⟨cs⟩
      | none => none
    | _ => none
  | _ => none

/-- Outcome of the single HTTP round trip inside `send_message`.
`transportError` covers connection and body-read failures that the `?`
operators propagate; `failure bodyText` is a non-2xx status whose body was
read as text; `success body` is a 2xx status whose body parsed as the JSON
document `body`. -/
inductive HttpOutcome where
  | transportError (e : String)
  | failure (bodyText : String)
  | success (body : Json)

/-- Mirrors `AnthropicClient::send_message` from the point the exchange
completes: non-success statuses become an `ApiError` carrying the raw
body; success bodies are parsed as `AnthropicResponse` (a parse failure
propagates as an error) and the first block's text, or `""`, is
returned. -/
def send_message (out : HttpOutcome) : Except String String :=
  match out with
  | HttpOutcome.transportError e => Except.error e
  | HttpOutcome.failure bodyText =>
      Except.error ("API request failed: " ++ bodyText)
  | HttpOutcome.success body =>
      match decodeResponse body with
      | none => Except.error "error decoding response body"
      | some r => Except.ok (((r.content.head?).map Content.text).getD "")

/-- One event delivered by `rl.readline`. -/
inductive ReadEvent where
  | line (raw : String)
  | interrupted
  | eof
  | readErr (e : String)

/-- The two live states of the session loop of the spec's state machine. -/
inductive LoopState where
  | Reading
  | Terminated
deriving DecidableEq

/-- One iteration of the `loop` in `start_chat`. `api` is the oracle for
`client.send_message` on the transcript snapshot it is handed; `writeOk`
models whether a `save_chat_history` call made this turn would succeed.
The result is `Except.error e` exactly when the iteration propagates an
error out of `start_chat` (the `?` on the clear-path save); otherwise it
is the new in-memory transcript, the new file state, and whether the loop
keeps reading or breaks. -/
def step (ev : ReadEvent) (api : List Message → Except String String)
    (writeOk : Bool) (ms : List Message) (fs : FileState) :
    Except String (List Message × FileState × LoopState) :=
  match ev with
  | ReadEvent.interrupted => Except.ok (ms, fs, LoopState.Terminated)
  | ReadEvent.eof => Except.ok (ms, fs, LoopState.Terminated)
  | ReadEvent.readErr _ => Except.ok (ms, fs, LoopState.Terminated)
  | ReadEvent.line raw =>
    let line := rustTrim raw
    if line = "" then Except.ok (ms, fs, LoopState.Reading)
    else if line = "quit" ∨ line = "exit" then
      Except.ok (ms, fs, LoopState.Terminated)
    else if line = "clear" then
      match save_chat_history writeOk [] with
      | Except.ok fs2 => Except.ok ([], fs2, LoopState.Reading)
      | Except.error e => Except.error e
    else
      let ms2 := ms ++ [⟨"user", line⟩]
      match api ms2 with
      | Except.ok response =>
        let ms3 := ms2 ++ [⟨"assistant", response⟩]
        match save_chat_history writeOk ms3 with
        | Except.ok fs2 => Except.ok (ms3, fs2, LoopState.Reading)
        | Except.error _ => Except.ok (ms3, fs, LoopState.Reading)
      | Except.error _ => Except.ok (ms2.dropLast, fs, LoopState.Reading)

/-- Result of one git subprocess. `ok stdout` = the command ran and exited
successfully; `statusFail` = it ran but exited non-zero; `execError` =
spawning it (or the UTF-8 conversion of its output) failed, which the `?`
operators propagate. -/
inductive CmdResult where
  | ok (stdout : String)
  | statusFail
  | execError (e : String)

/-- Mirrors `get_git_diff`: the staged diff is returned whenever the
`git diff --cached` command itself exits successfully; only a non-zero
exit status triggers the fallback to `git diff`. -/
def get_git_diff (staged unstaged : CmdResult) : Except String String :=
  match staged with
  | CmdResult.execError e => Except.error e
  | CmdResult.ok s => Except.ok s
  | CmdResult.statusFail =>
    match unstaged with
    | CmdResult.execError e => Except.error e
    | CmdResult.ok u => Except.ok u
    | CmdResult.statusFail => Except.error "No git changes found"

/-- How one run of the commit-message runner ends. `gitError` and
`credentialError` are errors propagated out of `generate_commit_message`
by `?` (the process then exits non-zero from `main`); `noChanges` and
`apiFailure` are the explicit `std::process::exit(1)` sites; `success`
carries the trimmed reply that is printed. -/
inductive CommitOutcome where
  | gitError (e : String)
  | noChanges
  | credentialError (e : String)
  | apiFailure (e : String)
  | success (printed : String)

/-- The fixed instructional prompt template wrapped around the diff. -/
def commitPrompt (diff : String) : String :=
  "Please generate a concise and descriptive commit message for the following git diff. The commit message should follow conventional commit format and be clear about what changes were made:\n\n" ++ diff

/-- Mirrors `generate_commit_message`: obtain the diff, exit with
`noChanges` when its trim is empty (before the client is even built, so
no API call occurs), otherwise build the client, send the one-message
transcript and report the outcome. -/
def generate_commit_message (staged unstaged : CmdResult)
    (envVar : Option String) (cfg : ConfigState)
    (api : List Message → Except String String) : CommitOutcome :=
  match get_git_diff staged unstaged with
  | Except.error e => CommitOutcome.gitError e
  | Except.ok diff =>
    if rustTrim diff = "" then CommitOutcome.noChanges
    else
      match AnthropicClient.new envVar cfg with
      | Except.error e => CommitOutcome.credentialError e
      | Except.ok _key =>
        match api [⟨"user", commitPrompt diff⟩] with
        | Except.ok response => CommitOutcome.success (rustTrim response)
        | Except.error e => CommitOutcome.apiFailure e

/-- A backing-file state on which loading cannot succeed: missing file,
unreadable file, text that is not JSON, or JSON that does not decode as a
transcript. -/
def badBacking : FileState → Bool
  | FileState.missing => true
  | FileState.unreadable => true
  | FileState.corrupt => true
  | FileState.content j => (decodeTranscript j).isNone

theorem decodeMessage_encodeMessage (m : Message) :
    decodeMessage (encodeMessage m) = some m := rfl

theorem decodeList_map_encodeMessage (l : List Message) :
    decodeList (l.map encodeMessage) = some l := by
  induction l with
  | nil => rfl
  | cons m rest ih => simp [List.map, decodeList, decodeMessage_encodeMessage, ih]

theorem decodeTranscript_encodeTranscript (t : List Message) :
    decodeTranscript (encodeTranscript t) = some t := by
  simpa [encodeTranscript, decodeTranscript] using decodeList_map_encodeMessage t

/-- C1: in the session loop, a turn whose API call fails leaves the
in-memory transcript equal to what it was before the turn (the appended
user message is popped again), persists nothing (the file state is
unchanged), and stays in `Reading`. -/
theorem c1_api_failure_rolls_back (raw : String)
    (api : List Message → Except String String) (writeOk : Bool)
    (ms : List Message) (fs : FileState) (e : String)
    (hne : rustTrim raw ≠ "")
    (hq : rustTrim raw ≠ "quit") (hx : rustTrim raw ≠ "exit")
    (hc : rustTrim raw ≠ "clear")
    (hapi : api (ms ++ [⟨"user", rustTrim raw⟩]) = Except.error e) :
    step (ReadEvent.line raw) api writeOk ms fs =
      Except.ok (ms, fs, LoopState.Reading) := by
  simp [step, hne, hq, hx, hc, hapi, List.dropLast_concat]

/-- Witness for C1 at a concrete failing turn. -/
theorem c1_api_failure_rolls_back_witness :
    step (ReadEvent.line " hello ") (fun _ => Except.error "boom") true
      [⟨"user", "a"⟩, ⟨"assistant", "b"⟩] FileState.missing =
      Except.ok ([⟨"user", "a"⟩, ⟨"assistant", "b"⟩], FileState.missing,
        LoopState.Reading) :=
  c1_api_failure_rolls_back " hello " (fun _ => Except.error "boom") true
    [⟨"user", "a"⟩, ⟨"assistant", "b"⟩] FileState.missing "boom"
    (by decide) (by decide) (by decide) (by decide) rfl

/-- C2: code evaluated at the failing input. When `git diff --cached`
exits successfully with empty output while `git diff` would return a
non-empty patch, `get_git_diff` returns the empty staged output — the
fallback fires only on a non-zero exit status — so the commit runner ends
in `noChanges` (exit 1) without ever invoking the API, for every API
oracle. The claim says the runner proceeds using the unstaged diff. -/
theorem c2_staged_empty_no_fallback :
    get_git_diff (CmdResult.ok "") (CmdResult.ok "diff --git a/f b/f\n+x\n") =
      Except.ok ""
    ∧ ∀ api : List Message → Except String String,
        generate_commit_message (CmdResult.ok "")
          (CmdResult.ok "diff --git a/f b/f\n+x\n")
          (some "key") ConfigState.absent api = CommitOutcome.noChanges :=
  ⟨rfl, fun _ => rfl⟩

/-- C3 counterexample: with the transcript-file write failing, the `clear`
command's save is followed by `?`, so the session loop aborts with the
propagated error instead of continuing — save failure is fatal on the
clear path. -/
theorem c3_counterexample :
    step (ReadEvent.line "clear") (fun _ => Except.ok "hi") false
      [⟨"user", "a"⟩] FileState.missing = Except.error "io error" := rfl

/-- C3 amended: a save failure after a successful turn is non-fatal — the
loop keeps the in-memory transcript (user and assistant messages
appended), leaves the file unchanged and stays in `Reading`; but on the
clear path a save failure propagates out of the loop as an error. -/
theorem c3_amended_save_failure (raw : String)
    (api : List Message → Except String String)
    (ms : List Message) (fs : FileState) (resp : String)
    (hne : rustTrim raw ≠ "")
    (hq : rustTrim raw ≠ "quit") (hx : rustTrim raw ≠ "exit")
    (hc : rustTrim raw ≠ "clear")
    (hapi : api (ms ++ [⟨"user", rustTrim raw⟩]) = Except.ok resp) :
    step (ReadEvent.line raw) api false ms fs =
      Except.ok (ms ++ [⟨"user", rustTrim raw⟩, ⟨"assistant", resp⟩], fs,
        LoopState.Reading)
    ∧ step (ReadEvent.line "clear") api false ms fs =
        Except.error "io error" := by
  constructor
  · simp [step, hne, hq, hx, hc, hapi, save_chat_history]
  · rfl

/-- Witness for C3's amended claim at a concrete turn. -/
theorem c3_amended_save_failure_witness :
    step (ReadEvent.line "hello") (fun _ => Except.ok "hi") false []
      FileState.missing =
      Except.ok ([⟨"user", "hello"⟩, ⟨"assistant", "hi"⟩], FileState.missing,
        LoopState.Reading)
    ∧ step (ReadEvent.line "clear") (fun _ => Except.ok "hi") false []
        FileState.missing = Except.error "io error" :=
  c3_amended_save_failure "hello" (fun _ => Except.ok "hi") []
    FileState.missing "hi" (by decide) (by decide) (by decide) (by decide) rfl

/-- C4: saving any transcript (with the write succeeding) stores its
serialization, loading that file returns the same transcript, and loading
when no file has ever been written returns the empty transcript. -/
theorem c4_save_load_round_trip (t : List Message) :
    save_chat_history true t = Except.ok (FileState.content (encodeTranscript t))
    ∧ load_chat_history (FileState.content (encodeTranscript t)) = t
    ∧ load_chat_history FileState.missing = [] := by
  refine ⟨rfl, ?_, rfl⟩
  simp [load_chat_history, decodeTranscript_encodeTranscript]

/-- C5: any input line whose trimmed form is `clear`, over any prior
transcript, empties the in-memory transcript, persists the empty
transcript (the file then loads as empty), and stays in `Reading`. -/
theorem c5_clear_empties_and_persists (raw : String)
    (api : List Message → Except String String)
    (ms : List Message) (fs : FileState)
    (hclear : rustTrim raw = "clear") :
    step (ReadEvent.line raw) api true ms fs =
      Except.ok ([], FileState.content (encodeTranscript []), LoopState.Reading)
    ∧ load_chat_history (FileState.content (encodeTranscript [])) = [] := by
  constructor
  · simp [step, hclear, save_chat_history]
  · rfl

/-- Witness for C5 with a four-message prior transcript. -/
theorem c5_clear_empties_and_persists_witness :
    step (ReadEvent.line "  clear ") (fun _ => Except.ok "x") true
      [⟨"user", "a"⟩, ⟨"assistant", "b"⟩, ⟨"user", "c"⟩, ⟨"assistant", "d"⟩]
      FileState.corrupt =
      Except.ok ([], FileState.content (encodeTranscript []), LoopState.Reading)
    ∧ load_chat_history (FileState.content (encodeTranscript [])) = [] :=
  c5_clear_empties_and_persists "  clear " (fun _ => Except.ok "x")
    [⟨"user", "a"⟩, ⟨"assistant", "b"⟩, ⟨"user", "c"⟩, ⟨"assistant", "d"⟩]
    FileState.corrupt (by decide)

/-- C6: when the environment variable holds a non-empty key and the config
file also holds a non-empty `api_key` field, resolution returns the
environment value and client construction succeeds with it; and whenever
the resolved value is empty, construction fails with the
credential-missing error. -/
theorem c6_credential_resolution (v c : String)
    (entries : List (String × String))
    (hv : v ≠ "") (hfield : configGet entries "api_key" = some c) (hc : c ≠ "") :
    resolve_api_key (some v) (ConfigState.parsed entries) = v
    ∧ AnthropicClient.new (some v) (ConfigState.parsed entries) = Except.ok v
    ∧ ∀ envVar cfg, resolve_api_key envVar cfg = "" →
        AnthropicClient.new envVar cfg = Except.error credentialMissingMsg := by
  refine ⟨rfl, ?_, ?_⟩
  · simp [AnthropicClient.new, resolve_api_key, hv]
  · intro envVar cfg h
    simp [AnthropicClient.new, h]

/-- Witness for C6 with both sources populated, and the cases where the
resolved value is empty. -/
theorem c6_credential_resolution_witness :
    AnthropicClient.new (some "env-key")
      (ConfigState.parsed [("api_key", "cfg-key")]) = Except.ok "env-key"
    ∧ AnthropicClient.new none ConfigState.absent =
        Except.error credentialMissingMsg
    ∧ AnthropicClient.new (some "") (ConfigState.parsed [("api_key", "cfg-key")]) =
        Except.error credentialMissingMsg := by
  have h := c6_credential_resolution "env-key" "cfg-key"
    [("api_key", "cfg-key")] (by decide) rfl (by decide)
  exact ⟨h.2.1, h.2.2 none ConfigState.absent rfl,
    h.2.2 (some "") (ConfigState.parsed [("api_key", "cfg-key")]) rfl⟩

/-- C7: on a success status whose body parses as an `AnthropicResponse`,
`send_message` returns `Ok` with the text of the first content block, and
with the empty string when the block list is empty — never an error. -/
theorem c7_first_block_or_empty (body : Json) (r : AnthropicResponse)
    (h : decodeResponse body = some r) :
    send_message (HttpOutcome.success body) =
      Except.ok (match r.content with
        | [] => ""
        | cBlock :: _ => cBlock.text) := by
  cases hr : r.content with
  | nil => simp [send_message, h, hr]
  | cons cBlock rest => simp [send_message, h, hr]

/-- Witness for C7 at a body with zero content blocks: the result is a
success carrying the empty string. -/
theorem c7_first_block_or_empty_witness :
    send_message (HttpOutcome.success (Json.obj [("content", Json.arr [])])) =
      Except.ok "" :=
  c7_first_block_or_empty (Json.obj [("content", Json.arr [])]) ⟨[]⟩ rfl

/-- C8: loading the transcript never fails its caller — every backing-file
state on which a read or parse cannot succeed (missing, unreadable, not
JSON, or JSON of the wrong shape) loads as the empty transcript. -/
theorem c8_load_never_fails (fs : FileState) (h : badBacking fs = true) :
    load_chat_history fs = [] := by
  cases fs with
  | missing => rfl
  | unreadable => rfl
  | corrupt => rfl
  | content j =>
    simp only [badBacking, Option.isNone_iff_eq_none] at h
    simp [load_chat_history, h]

/-- Witness for C8 at a file holding JSON that is not a transcript. -/
theorem c8_load_never_fails_witness :
    badBacking (FileState.content (Json.num 3)) = true
    ∧ load_chat_history (FileState.content (Json.num 3)) = [] :=
  ⟨rfl, c8_load_never_fails (FileState.content (Json.num 3)) rfl⟩

/-- C9: when the staged diff is obtained but trim-empty (whatever the
unstaged command would do), and likewise when the staged command fails and
the unstaged diff is obtained but trim-empty, the commit runner ends in
`noChanges` — the exit-1 site reached before the client is built, with the
API oracle never consulted. -/
theorem c9_no_changes_exits_without_api (s u : String)
    (envVar : Option String) (cfg : ConfigState)
    (api : List Message → Except String String) (ust : CmdResult)
    (hs : rustTrim s = "") (hu : rustTrim u = "") :
    generate_commit_message (CmdResult.ok s) ust envVar cfg api =
      CommitOutcome.noChanges
    ∧ generate_commit_message CmdResult.statusFail (CmdResult.ok u) envVar cfg
        api = CommitOutcome.noChanges := by
  constructor
  · simp [generate_commit_message, get_git_diff, hs]
  · simp [generate_commit_message, get_git_diff, hu]

/-- Witness for C9 with whitespace-only diffs. -/
theorem c9_no_changes_exits_without_api_witness :
    generate_commit_message (CmdResult.ok "") (CmdResult.ok " \n")
      (some "key") ConfigState.absent (fun _ => Except.ok "msg") =
      CommitOutcome.noChanges
    ∧ generate_commit_message CmdResult.statusFail (CmdResult.ok " \n")
        (some "key") ConfigState.absent (fun _ => Except.ok "msg") =
      CommitOutcome.noChanges :=
  c9_no_changes_exits_without_api "" " \n" (some "key") ConfigState.absent
    (fun _ => Except.ok "msg") (CmdResult.ok " \n") rfl (by decide)

/-- C10: every line is trimmed before dispatch — a whitespace-only line is
a no-op that stays in `Reading`; `quit`, `exit` and `clear` are recognized
in trimmed form; and the user message appended on the chat path carries
the trimmed text, never the raw line. -/
theorem c10_input_trimmed_before_dispatch (raw : String)
    (api : List Message → Except String String) (writeOk : Bool)
    (ms : List Message) (fs : FileState) :
    (rustTrim raw = "" →
      step (ReadEvent.line raw) api writeOk ms fs =
        Except.ok (ms, fs, LoopState.Reading))
    ∧ (rustTrim raw = "quit" ∨ rustTrim raw = "exit" →
      step (ReadEvent.line raw) api writeOk ms fs =
        Except.ok (ms, fs, LoopState.Terminated))
    ∧ (rustTrim raw = "clear" →
      step (ReadEvent.line raw) api true ms fs =
        Except.ok ([], FileState.content (encodeTranscript []), LoopState.Reading))
    ∧ ∀ resp, rustTrim raw ≠ "" → rustTrim raw ≠ "quit" →
        rustTrim raw ≠ "exit" → rustTrim raw ≠ "clear" →
        api (ms ++ [⟨"user", rustTrim raw⟩]) = Except.ok resp →
        step (ReadEvent.line raw) api true ms fs =
          Except.ok (ms ++ [⟨"user", rustTrim raw⟩, ⟨"assistant", resp⟩],
            FileState.content
              (encodeTranscript (ms ++ [⟨"user", rustTrim raw⟩, ⟨"assistant", resp⟩])),
            LoopState.Reading) := by
  refine ⟨?_, ?_, ?_, ?_⟩
  · intro h
    simp [step, h]
  · intro h
    rcases h with h | h <;> simp [step, h]
  · intro h
    simp [step, h, save_chat_history]
  · intro resp hne hq hx hc hapi
    simp [step, hne, hq, hx, hc, hapi, save_chat_history]

/-- Witness for C10: a line padded with whitespace is appended trimmed. -/
theorem c10_input_trimmed_before_dispatch_witness :
    step (ReadEvent.line "  hello  ") (fun _ => Except.ok "hi") true []
      FileState.missing =
      Except.ok ([⟨"user", "hello"⟩, ⟨"assistant", "hi"⟩],
        FileState.content (encodeTranscript [⟨"user", "hello"⟩, ⟨"assistant", "hi"⟩]),
        LoopState.Reading) :=
  (c10_input_trimmed_before_dispatch "  hello  " (fun _ => Except.ok "hi") true
    [] FileState.missing).2.2.2 "hi" (by decide) (by decide) (by decide)
    (by decide) rfl
